import Mathlib

/-!
Verification of the client-side logic of the school-clinic appointment system.

Shallow embedding conventions:
* A JavaScript string value is modelled as its list of characters (`JSString`).
* `appointment_date` is modelled as the numeric timestamp `new Date(d).getTime()`,
  since the code only ever compares dates numerically
  (`new Date(b.appointment_date) - new Date(a.appointment_date)`).
* JavaScript stable `Array.prototype.sort` with a consistent comparator `c` is
  modelled by `List.mergeSort` with `le a b := c a b ≤ 0` (core mergeSort is stable).
* Fallible JSON fields are `Option`s; a thrown `fetch` is an explicit constructor.
-/

abbrev JSString := List Char

/-- Convert a Lean string literal to the `JSString` model. -/
def jstr (s : String) : JSString := s.data

/-- JS `String.prototype.toLowerCase` (ASCII fragment, which is all the code uses). -/
def jsLower (s : JSString) : JSString := s.map Char.toLower

/-- JS `String.prototype.includes`: `jsIncludes s sub` is true iff `sub` occurs
contiguously inside `s`. -/
def jsIncludes : JSString → JSString → Bool
  | [], sub => sub.isEmpty
  | c :: rest, sub => sub.isPrefixOf (c :: rest) || jsIncludes rest sub

/-- JS `String.prototype.trim`. -/
def jsTrim (s : JSString) : JSString :=
  ((s.dropWhile Char.isWhitespace).reverse.dropWhile Char.isWhitespace).reverse

def jsSplitAux (sep : Char) : JSString → JSString → List JSString
  | [], acc => [acc.reverse]
  | c :: rest, acc =>
      if c = sep then acc.reverse :: jsSplitAux sep rest []
      else jsSplitAux sep rest (c :: acc)

/-- JS `String.prototype.split` with a single-character separator:
`"".split(c) = [""]`, `"a:".split(c) = ["a",""]`, and so on. -/
def jsSplit (sep : Char) (s : JSString) : List JSString := jsSplitAux sep s []

def takeDigits : JSString → List Nat
  | [] => []
  | c :: rest => if c.isDigit then (c.toNat - 48) :: takeDigits rest else []

def digitsToNatAux : List Nat → Nat → Nat
  | [], acc => acc
  | d :: ds, acc => digitsToNatAux ds (acc * 10 + d)

def parseDigits (l : JSString) : Option Nat :=
  match takeDigits l with
  | [] => none
  | ds => some (digitsToNatAux ds 0)

/-- JS `parseInt(s)` in base 10: skip leading whitespace, optional sign, then the
longest digit run; `none` models `NaN`. -/
def jsParseInt (s : JSString) : Option Int :=
  let t := s.dropWhile Char.isWhitespace
  match t with
  | '-' :: rest => (parseDigits rest).map (fun n => -(n : Int))
  | '+' :: rest => (parseDigits rest).map (fun n => (n : Int))
  | _ => (parseDigits t).map (fun n => (n : Int))

/-- JS template interpolation of a number (integral case): `-5` renders as `"-5"`. -/
def jsIntToStr (i : Int) : JSString :=
  if i < 0 then '-' :: Nat.toDigits 10 i.natAbs else Nat.toDigits 10 i.natAbs

/-- An appointment record as consumed by both dashboards (see `schema.sql` and the
JSON fields the renderers read). `appointment_date` is the epoch timestamp of the
date string; `service_type` and `urgency` are optional because the code guards them
with `|| ''`. -/
structure Appointment where
  id : Nat
  student_name : JSString
  service_type : Option JSString
  urgency : Option JSString
  appointment_date : Int
  appointment_time : JSString
  status : JSString
deriving DecidableEq, Repr

namespace AdminDashboard

/-- The admin filter controls: `status-filter`, the raw `search-input` value and the
`sort-order` select (admin-dashboard.js lines 172-174). -/
structure FilterState where
  statusFilter : JSString
  searchInput : JSString
  sortChoice : JSString
deriving DecidableEq, Repr

/-- The `statusPriority` lookup together with the `|| 99` default
(admin-dashboard.js lines 198-208). -/
def statusPriority (status : JSString) : Int :=
  if status = jstr "pending" then 1
  else if status = jstr "approved" then 2
  else if status = jstr "completed" then 3
  else if status = jstr "rejected" then 3
  else if status = jstr "canceled" then 3
  else 99

/-- `matchesStatus` (admin-dashboard.js line 177). -/
def matchesStatus (statusFilter : JSString) (apt : Appointment) : Bool :=
  statusFilter == jstr "all" || apt.status == statusFilter

/-- `matchesSearch` (admin-dashboard.js line 178); the caller lowercases the
search term (line 173). -/
def matchesSearch (searchTerm : JSString) (apt : Appointment) : Bool :=
  jsIncludes (jsLower apt.student_name) searchTerm

/-- `matchesType` (admin-dashboard.js lines 180-192). -/
def matchesType (sortChoice : JSString) (apt : Appointment) : Bool :=
  let service := jsLower (apt.service_type.getD [])
  let urgency := jsLower (apt.urgency.getD [])
  if sortChoice == jstr "clearance-urgent" then
    jsIncludes service (jstr "clearance") && (urgency == jstr "urgent" || urgency == jstr "high")
  else if sortChoice == jstr "consultation-urgent" then
    jsIncludes service (jstr "consultation") && (urgency == jstr "urgent" || urgency == jstr "high")
  else if sortChoice == jstr "clearance-normal" then
    jsIncludes service (jstr "clearance") && (urgency == jstr "normal" || urgency == jstr "low")
  else if sortChoice == jstr "consultation-normal" then
    jsIncludes service (jstr "consultation") && (urgency == jstr "normal" || urgency == jstr "low")
  else true

/-- The sort comparator of admin-dashboard.js lines 206-214, as a boolean order:
`sortLe a b` iff the comparator returns a value `≤ 0` on `(a, b)`. -/
def sortLe (a b : Appointment) : Bool :=
  let priorityA := statusPriority a.status
  let priorityB := statusPriority b.status
  if priorityA = priorityB then b.appointment_date ≤ a.appointment_date
  else priorityA < priorityB

/-- `applyFiltersAndSort` (admin-dashboard.js lines 171-217): filter by the three
predicates, then stable-sort by the comparator. -/
def applyFiltersAndSort (fs : FilterState) (allAppointments : List Appointment) :
    List Appointment :=
  let statusFilter := fs.statusFilter
  let searchTerm := jsLower fs.searchInput
  let sortChoice := fs.sortChoice
  let filtered := allAppointments.filter (fun apt =>
    matchesStatus statusFilter apt && matchesSearch searchTerm apt &&
      matchesType sortChoice apt)
  List.mergeSort filtered sortLe

/-- Actions offered in the admin surface: `View` and the trash button on every
table row, `Approve` and `Reject` in the appointment modal. -/
inductive AdminAction where
  | view
  | delete
  | approve
  | reject
deriving DecidableEq, Repr

/-- The per-row action-buttons cell (admin-dashboard.js lines 251-256): every row
unconditionally gets a View button and a delete button. -/
def adminRowActions : List AdminAction := [.view, .delete]

/-- One rendered `<tr>` of the admin appointments table. -/
structure AdminRow where
  apt : Appointment
  actions : List AdminAction
deriving DecidableEq, Repr

/-- What the admin table body contains after `displayAppointments` runs: either the
"No appointments found matching these criteria." placeholder row, or one row per
record. -/
inductive AdminRender where
  | noResults
  | rows (entries : List AdminRow)
deriving DecidableEq, Repr

/-- `displayAppointments` (admin-dashboard.js lines 219-261). -/
def displayAppointments (data : List Appointment) : AdminRender :=
  if data = [] then .noResults
  else .rows (data.map (fun apt => ⟨apt, adminRowActions⟩))

/-- Modelled from the spec: the Approve and Reject buttons live in the
`.modal-actions` div of the admin HTML page, which is not under src/; the spec
action table (section 4.2) lists approve and reject as the admin actions beyond
view/delete. Their visibility logic is in src: `openAppointmentModal`
(admin-dashboard.js lines 334-339) hides the div unless the status is pending. -/
def modalActions (status : JSString) : List AdminAction :=
  if status ≠ jstr "pending" then []
  else [.approve, .reject]

/-- All actions the admin surface offers for an appointment with the given status:
the row buttons plus whatever the modal exposes. -/
def adminActions (status : JSString) : List AdminAction :=
  adminRowActions ++ modalActions status

/-- The observable steps of `onScanSuccess` (admin-dashboard.js lines 92-149). -/
inductive ScanEvent where
  | stopScan
  | putStatusUpdate (status note : JSString)
  | successAlert
  | alreadyScannedWarning
  | errorAlert
  | resumeScan (delayMs : Nat)
deriving DecidableEq, Repr

/-- Outcome of `await fetch` + `await response.json()` inside `onScanSuccess`:
either a response (with `response.ok` split out, and `data.detail` as an optional
string — non-string details behave like an absent one for the `===` comparison), or
a throw from `fetch`/`json()`. -/
inductive FetchOutcome where
  | respOk (detail : Option JSString)
  | respErr (detail : Option JSString)
  | thrown
deriving DecidableEq, Repr

/-- The `timer: 2500` on the success dialog, after which scanning restarts. -/
def confirmationDelayMs : Nat := 2500

/-- The `setTimeout(startScanner, 2000)` backoff on generic failures. -/
def backoffDelayMs : Nat := 2000

/-- `onScanSuccess` (admin-dashboard.js lines 92-149) as the trace of observable
events it performs for a given fetch outcome. The already-scanned dialog has no
timer, so scanning resumes with no programmed delay (`resumeScan 0`). -/
def onScanSuccess (response : FetchOutcome) : List ScanEvent :=
  [.stopScan, .putStatusUpdate (jstr "completed") (jstr "Verified via QR Scan")] ++
  match response with
  | .respOk _ => [.successAlert, .resumeScan confirmationDelayMs]
  | .respErr detail =>
      if detail == some (jstr "ALREADY_SCANNED") || detail == some (jstr "already_scanned") then
        [.alreadyScannedWarning, .resumeScan 0]
      else
        [.errorAlert, .resumeScan backoffDelayMs]
  | .thrown => [.errorAlert, .resumeScan backoffDelayMs]

def isPutEvent : ScanEvent → Bool
  | .putStatusUpdate _ _ => true
  | _ => false

def isWarnEvent : ScanEvent → Bool
  | .alreadyScannedWarning => true
  | _ => false

/-- The delays (in ms) after which the trace restarts the scanner. -/
def resumeDelays (trace : List ScanEvent) : List Nat :=
  trace.filterMap (fun e => match e with | .resumeScan d => some d | _ => none)

/-- `formatTime` (admin-dashboard.js lines 294-305). A falsy (empty) input returns
""; otherwise split on ":", `parseInt` the first part (`none` models `NaN`, which
compares false against 12 and is falsy), take `parts[1]` as the minutes (an absent
part interpolates as "undefined"), and render `hour:minutes AM/PM` with
`hour % 12` and the falsy-zero replaced by 12. -/
def formatTime (timeStr : JSString) : JSString :=
  if timeStr = [] then []
  else
    let parts := jsSplit ':' timeStr
    let hour0 := jsParseInt (parts.headD [])
    let minutes := (parts.drop 1).headD (jstr "undefined")
    let ampm := match hour0 with
      | some h => if h ≥ 12 then jstr "PM" else jstr "AM"
      | none => jstr "AM"
    let hour1 : Option Int := hour0.map (fun h => Int.tmod h 12)
    let hour2 : Int := match hour1 with
      | some h => if h = 0 then 12 else h
      | none => 12
    jsIntToStr hour2 ++ jstr ":" ++ minutes ++ jstr " " ++ ampm

end AdminDashboard

namespace StudentDashboard

/-- `filterAppointments` (student dashboard, src/unnamed/part_000 lines 326-334). -/
def filterAppointments (filter : JSString) (allAppointments : List Appointment) :
    List Appointment :=
  if filter == jstr "all" then allAppointments
  else allAppointments.filter (fun apt => apt.status == filter)

/-- The handler a student action button invokes (part_000 lines 171-199). -/
inductive StudentHandler where
  | cancelAppointmentFn
  | generateTicketFn
  | deleteHistoryFn
deriving DecidableEq, Repr

/-- One action button of a student appointment card: its label and its handler. -/
structure StudentButton where
  label : JSString
  handler : StudentHandler
deriving DecidableEq, Repr

/-- The `actionButtonsHtml` branch of the student renderer
(part_000 lines 171-199): the buttons offered for each status. -/
def studentActions (status : JSString) : List StudentButton :=
  if status == jstr "pending" then
    [⟨jstr "Cancel Request", .cancelAppointmentFn⟩]
  else if status == jstr "approved" then
    [⟨jstr "Download Ticket", .generateTicketFn⟩,
     ⟨jstr "Cancel Appointment", .deleteHistoryFn⟩]
  else if status == jstr "completed" then
    [⟨jstr "Delete History", .deleteHistoryFn⟩]
  else
    [⟨jstr "Delete History", .deleteHistoryFn⟩]

/-- What the student appointments container holds after `displayAppointments`:
the "No appointments found" paragraph, or one card per record. -/
inductive StudentRender where
  | noResults
  | cards (entries : List (Appointment × List StudentButton))
deriving DecidableEq, Repr

/-- `displayAppointments` (part_000 lines 137-221); the argument is an `Option` to
model the `!appointments` null guard. -/
def displayAppointments (appointments : Option (List Appointment)) : StudentRender :=
  match appointments with
  | none => .noResults
  | some l =>
      if l = [] then .noResults
      else .cards (l.map (fun apt => (apt, studentActions apt.status)))

/-- One entry of the `chatHistory` array (part_000 line 4): a role
("user" or "model") and the message text. -/
structure ChatMsg where
  role : JSString
  message : JSString
deriving DecidableEq, Repr

/-- The body of the POST `/chat` request (part_000 lines 378-381):
the current message and the full history array. -/
structure ChatRequest where
  message : JSString
  history : List ChatMsg
deriving DecidableEq, Repr

/-- One chat turn as the environment presents it: the raw content of the input box
and the assistant reply (`none` models a thrown fetch). -/
structure ChatTurn where
  input : JSString
  reply : Option JSString
deriving DecidableEq, Repr

/-- The keyword heuristic of part_000 lines 391-394: the reply text, lowercased,
contains "booked" or "canceled". -/
def keywordReload (resp : JSString) : Bool :=
  jsIncludes (jsLower resp) (jstr "booked") || jsIncludes (jsLower resp) (jstr "canceled")

/-- One run of `sendChatMessage` (part_000 lines 356-400) from a given
`chatHistory`: returns the new `chatHistory`, the list of requests issued (empty
when the trimmed input is falsy and the function returns early), and how many times
`loadAppointments()` was triggered by the keyword heuristic. The user message is
pushed before the fetch; the model reply is pushed only when one is received. -/
def sendChatMessage (chatHistory : List ChatMsg) (t : ChatTurn) :
    List ChatMsg × List ChatRequest × Nat :=
  let message := jsTrim t.input
  if message = [] then (chatHistory, [], 0)
  else
    let h1 := chatHistory ++ [⟨jstr "user", message⟩]
    let req : ChatRequest := ⟨message, h1⟩
    match t.reply with
    | some resp =>
        (h1 ++ [⟨jstr "model", resp⟩], [req], if keywordReload resp then 1 else 0)
    | none => (h1, [req], 0)

/-- A whole chat session: fold `sendChatMessage` over the turns, collecting the
final `chatHistory` and all requests issued, in order. -/
def runChat (chatHistory : List ChatMsg) : List ChatTurn → List ChatMsg × List ChatRequest
  | [] => (chatHistory, [])
  | t :: ts =>
      let step := sendChatMessage chatHistory t
      let rest := runChat step.1 ts
      (rest.1, step.2.1 ++ rest.2)

/-- Specification-side transcript (follows the spec words of section 4.4): each
effective turn appends the user utterance and then the received assistant reply,
in order; nothing is ever removed. -/
def specTranscript : List ChatTurn → List ChatMsg
  | [] => []
  | t :: ts =>
      let m := jsTrim t.input
      if m = [] then specTranscript ts
      else
        (⟨jstr "user", m⟩ ::
          (match t.reply with | some r => [⟨jstr "model", r⟩] | none => [])) ++
        specTranscript ts

/-- Specification-side request log (follows the spec words of section 4.4): each
effective turn sends one request carrying the full transcript accumulated so far,
ending with that turn's own user utterance. -/
def specRequests (pre : List ChatMsg) : List ChatTurn → List ChatRequest
  | [] => []
  | t :: ts =>
      let m := jsTrim t.input
      if m = [] then specRequests pre ts
      else
        let sent := pre ++ [⟨jstr "user", m⟩]
        ⟨m, sent⟩ ::
          specRequests
            (sent ++ (match t.reply with | some r => [⟨jstr "model", r⟩] | none => []))
            ts

/-- `formatTime` (student dashboard, part_000 lines 415-426); the same algorithm as
the admin copy, written with the destructured `[hours, minutes]` split. -/
def formatTime (timeStr : JSString) : JSString :=
  if timeStr = [] then []
  else
    let parts := jsSplit ':' timeStr
    let hour0 := jsParseInt (parts.headD [])
    let minutes := (parts.drop 1).headD (jstr "undefined")
    let ampm := match hour0 with
      | some h => if h ≥ 12 then jstr "PM" else jstr "AM"
      | none => jstr "AM"
    let hour1 : Option Int := hour0.map (fun h => Int.tmod h 12)
    let hour2 : Int := match hour1 with
      | some h => if h = 0 then 12 else h
      | none => 12
    jsIntToStr hour2 ++ jstr ":" ++ minutes ++ jstr " " ++ ampm

end StudentDashboard

namespace Login

/-- The `data.detail` field of a non-2xx login response: absent/undefined, a string
value, or some non-string JSON value (all non-strings fail the
`typeof data.detail === "string"` test, so one constructor suffices). -/
inductive JsDetail where
  | missing
  | strVal (s : JSString)
  | nonString
deriving DecidableEq, Repr

def friendlyEmailMsg : JSString := jstr "Please enter a valid email address format."

def genericLoginMsg : JSString := jstr "Invalid email or password."

/-- The `errorText` computation of the login submit handler (login.js lines 49-60):
default to the generic message; a 422 status yields the friendly format message;
otherwise `data.detail && typeof data.detail === "string"` picks the detail — note
that an empty string detail is falsy, so it falls through to the generic message. -/
def loginErrorText (status : Nat) (detail : JsDetail) : JSString :=
  if status = 422 then friendlyEmailMsg
  else
    match detail with
    | .strVal s => if s ≠ [] then s else genericLoginMsg
    | _ => genericLoginMsg

end Login

/-! Claim-side relations and sample records used by the theorems below. -/

/-- The status band exactly as the spec words it: pending = 1, approved = 2, and
everything else — completed, rejected, canceled, or any unrecognized value — 3.
This is the spec-side counterpart of `AdminDashboard.statusPriority`, for
comparison with the code. -/
def specStatusBand (status : JSString) : Int :=
  if status = jstr "pending" then 1
  else if status = jstr "approved" then 2
  else 3

/-- The ordering the spec asserts on adjacent displayed records: lower band first;
within an equal band, the later `appointment_date` first. -/
def specSortLe (a b : Appointment) : Prop :=
  specStatusBand a.status < specStatusBand b.status ∨
    (specStatusBand a.status = specStatusBand b.status ∧
      b.appointment_date ≤ a.appointment_date)

instance : DecidableRel specSortLe := fun a b => by
  unfold specSortLe
  infer_instance

/-- The ordering the code actually sorts by, as a proposition: lower
`statusPriority` (with the `|| 99` default for unrecognized statuses) first;
within an equal priority, the later `appointment_date` first. -/
def codeSortLe (a b : Appointment) : Prop :=
  AdminDashboard.statusPriority a.status < AdminDashboard.statusPriority b.status ∨
    (AdminDashboard.statusPriority a.status = AdminDashboard.statusPriority b.status ∧
      b.appointment_date ≤ a.appointment_date)

/-- Sample record: a pending medical-clearance request marked Urgent. -/
def aptClearanceUrgent : Appointment :=
  ⟨1, jstr "Ana Cruz", some (jstr "Medical Clearance"), some (jstr "Urgent"), 0,
    jstr "09:00", jstr "pending"⟩

/-- Sample record: a pending medical-consultation request marked Urgent. -/
def aptConsultationUrgent : Appointment :=
  ⟨2, jstr "Ben Diaz", some (jstr "Medical Consultation"), some (jstr "Urgent"), 0,
    jstr "10:00", jstr "pending"⟩

/-- Sample record: completed, with the earlier appointment date. -/
def aptCompleted : Appointment :=
  ⟨3, jstr "Cara", none, none, 0, jstr "08:00", jstr "completed"⟩

/-- Sample record: an unrecognized status value, with the later appointment date. -/
def aptMystery : Appointment :=
  ⟨4, jstr "Dan", none, none, 100, jstr "08:00", jstr "archived"⟩

/-- A filter state that filters nothing: status `all`, empty search, no category. -/
def fsAll : AdminDashboard.FilterState := ⟨jstr "all", [], []⟩

/-- A filter state with all three predicates active. -/
def fsActive : AdminDashboard.FilterState :=
  ⟨jstr "pending", jstr "an", jstr "clearance-urgent"⟩

open AdminDashboard StudentDashboard Login

/-! Helper lemmas about the admin comparator. -/

theorem sortLe_eq_true_iff (a b : Appointment) : sortLe a b = true ↔ codeSortLe a b := by
  by_cases h : statusPriority a.status = statusPriority b.status <;>
    simp [sortLe, codeSortLe, h]

theorem sortLe_trans (a b c : Appointment) :
    sortLe a b → sortLe b c → sortLe a c := by
  intro hab hbc
  rw [sortLe_eq_true_iff] at *
  unfold codeSortLe at *
  omega

theorem sortLe_total (a b : Appointment) : sortLe a b || sortLe b a := by
  rw [Bool.or_eq_true, sortLe_eq_true_iff, sortLe_eq_true_iff]
  unfold codeSortLe
  omega

/-- Claim C1: every appointment in the admin pipeline output satisfies the status
predicate (unless the selection is "all"), the case-insensitive substring match of
the search term against the student name, and the selected category predicate; every
appointment in the student filter output satisfies the status predicate unless the
selection is "all"; in both views no record outside the store appears. -/
theorem filter_pipeline_sound (fs : FilterState) (sf : JSString)
    (store : List Appointment) (apt : Appointment) :
    (apt ∈ applyFiltersAndSort fs store →
      (fs.statusFilter = jstr "all" ∨ apt.status = fs.statusFilter) ∧
      jsIncludes (jsLower apt.student_name) (jsLower fs.searchInput) = true ∧
      matchesType fs.sortChoice apt = true ∧
      apt ∈ store) ∧
    (apt ∈ filterAppointments sf store →
      (sf = jstr "all" ∨ apt.status = sf) ∧ apt ∈ store) := by
  constructor
  · intro h
    simp only [applyFiltersAndSort, List.mem_mergeSort, List.mem_filter,
      Bool.and_eq_true, matchesStatus, matchesSearch, Bool.or_eq_true,
      beq_iff_eq] at h
    obtain ⟨hmem, ⟨⟨hstat, hsearch⟩, htype⟩⟩ := h
    exact ⟨hstat, hsearch, htype, hmem⟩
  · intro h
    unfold filterAppointments at h
    by_cases hall : sf = jstr "all"
    · simp [hall] at h
      exact ⟨Or.inl hall, h⟩
    · have : (sf == jstr "all") = false := by simpa using hall
      rw [this] at h
      simp only [Bool.false_eq_true, if_false, List.mem_filter, beq_iff_eq] at h
      exact ⟨Or.inr h.2, h.1⟩

/-- Witness for C1, at a one-record store with every admin predicate active and
the student filter set to "pending". -/
theorem filter_pipeline_sound_witness :
    ((fsActive.statusFilter = jstr "all" ∨ aptClearanceUrgent.status = fsActive.statusFilter) ∧
      jsIncludes (jsLower aptClearanceUrgent.student_name) (jsLower fsActive.searchInput) = true ∧
      matchesType fsActive.sortChoice aptClearanceUrgent = true ∧
      aptClearanceUrgent ∈ [aptClearanceUrgent]) ∧
    ((jstr "pending" = jstr "all" ∨ aptClearanceUrgent.status = jstr "pending") ∧
      aptClearanceUrgent ∈ [aptClearanceUrgent]) := by
  constructor
  · exact (filter_pipeline_sound fsActive (jstr "pending") [aptClearanceUrgent]
      aptClearanceUrgent).1
      (by simp only [applyFiltersAndSort, List.mem_mergeSort]; decide)
  · exact (filter_pipeline_sound fsActive (jstr "pending") [aptClearanceUrgent]
      aptClearanceUrgent).2 (by decide)

/-- Counterexample for C2: the claim puts every unrecognized status in band 3, but
the code assigns it priority 99 (`statusPriority[a.status] || 99`). With a
completed record of an earlier date and an unrecognized-status record of a later
date, the code outputs the completed one first, violating the claimed
later-date-first order inside band 3. -/
theorem sort_band_counterexample :
    ¬ (applyFiltersAndSort fsAll [aptCompleted, aptMystery]).Pairwise specSortLe := by
  have h1 : applyFiltersAndSort fsAll [aptCompleted, aptMystery]
      = List.mergeSort [aptCompleted, aptMystery] sortLe := by
    simp only [applyFiltersAndSort]
    congr 1
  have h2 : List.mergeSort [aptCompleted, aptMystery] sortLe
      = [aptCompleted, aptMystery] :=
    List.mergeSort_of_sorted (by decide)
  rw [h1, h2]
  decide

/-- Claim C2 as amended: the admin output is ordered by the code priority —
pending = 1, approved = 2, completed/rejected/canceled = 3, any unrecognized value
99 (hence after every recognized status) — and, within an equal priority, by
appointment date descending. -/
theorem sort_priority_order (fs : FilterState) (store : List Appointment) :
    (applyFiltersAndSort fs store).Pairwise codeSortLe := by
  unfold applyFiltersAndSort
  exact (List.sorted_mergeSort sortLe_trans sortLe_total _).imp
    (fun h => (sortLe_eq_true_iff _ _).1 h)

/-- Claim C3: the status-to-actions mapping is total and exhaustive over the five
status values. Student view: pending offers exactly the cancel-request button,
approved exactly download-ticket and cancel-appointment, completed exactly
delete-history, rejected and canceled exactly delete-history. Admin view: every
status gets View and delete from its table row, and the modal adds approve/reject
exactly for pending. No status yields zero actions and none offers an action
outside its row. -/
theorem status_action_mapping :
    (studentActions (jstr "pending") =
      [⟨jstr "Cancel Request", .cancelAppointmentFn⟩]) ∧
    (studentActions (jstr "approved") =
      [⟨jstr "Download Ticket", .generateTicketFn⟩,
       ⟨jstr "Cancel Appointment", .deleteHistoryFn⟩]) ∧
    (studentActions (jstr "completed") =
      [⟨jstr "Delete History", .deleteHistoryFn⟩]) ∧
    (studentActions (jstr "rejected") =
      [⟨jstr "Delete History", .deleteHistoryFn⟩]) ∧
    (studentActions (jstr "canceled") =
      [⟨jstr "Delete History", .deleteHistoryFn⟩]) ∧
    (∀ status : JSString,
      adminActions status =
        if status = jstr "pending" then [.view, .delete, .approve, .reject]
        else [.view, .delete]) ∧
    (∀ status : JSString,
      AdminAction.view ∈ adminActions status ∧ AdminAction.delete ∈ adminActions status) ∧
    (∀ status : JSString,
      (AdminAction.approve ∈ adminActions status ↔ status = jstr "pending") ∧
      (AdminAction.reject ∈ adminActions status ↔ status = jstr "pending")) ∧
    (∀ status : JSString, studentActions status ≠ [] ∧ adminActions status ≠ []) := by
  have hadm : ∀ status : JSString,
      adminActions status =
        if status = jstr "pending" then [.view, .delete, .approve, .reject]
        else [.view, .delete] := by
    intro status
    by_cases h : status = jstr "pending" <;>
      simp [adminActions, adminRowActions, modalActions, h]
  refine ⟨by decide, by decide, by decide, by decide, by decide, hadm, ?_, ?_, ?_⟩
  · intro status
    rw [hadm status]
    by_cases h : status = jstr "pending" <;> simp [h]
  · intro status
    rw [hadm status]
    by_cases h : status = jstr "pending" <;> simp [h]
  · intro status
    constructor
    · unfold studentActions
      by_cases h1 : (status == jstr "pending") = true <;>
        by_cases h2 : (status == jstr "approved") = true <;>
          by_cases h3 : (status == jstr "completed") = true <;>
            simp [h1, h2, h3]
    · rw [hadm status]
      by_cases h : status = jstr "pending" <;> simp [h]

/-- Claim C4: for every decode result, the scan handler suspends scanning, sends
exactly one status-update request with status "completed" and the fixed audit
note, and then: on a 2xx response resumes after the confirmation delay with no
warning; on a non-2xx response whose structured detail equals the already-scanned
code, resumes with no programmed delay and surfaces the warning exactly once; on
any other failure, including a thrown fetch, resumes after the fixed backoff
delay. -/
theorem scan_decode_contract (r : FetchOutcome) :
    ((onScanSuccess r).countP isPutEvent = 1) ∧
    ((onScanSuccess r).take 2 =
      [.stopScan, .putStatusUpdate (jstr "completed") (jstr "Verified via QR Scan")]) ∧
    (∀ d, r = .respOk d →
      resumeDelays (onScanSuccess r) = [confirmationDelayMs] ∧
      (onScanSuccess r).countP isWarnEvent = 0) ∧
    (∀ d, r = .respErr d →
      (d = some (jstr "ALREADY_SCANNED") ∨ d = some (jstr "already_scanned")) →
      resumeDelays (onScanSuccess r) = [0] ∧
      (onScanSuccess r).countP isWarnEvent = 1) ∧
    (∀ d, r = .respErr d →
      ¬ (d = some (jstr "ALREADY_SCANNED") ∨ d = some (jstr "already_scanned")) →
      resumeDelays (onScanSuccess r) = [backoffDelayMs] ∧
      (onScanSuccess r).countP isWarnEvent = 0) ∧
    (r = .thrown → resumeDelays (onScanSuccess r) = [backoffDelayMs]) := by
  cases r with
  | respOk d =>
      have hok : onScanSuccess (.respOk d) =
          [.stopScan, .putStatusUpdate (jstr "completed") (jstr "Verified via QR Scan"),
           .successAlert, .resumeScan confirmationDelayMs] := rfl
      refine ⟨?_, ?_, fun d' _ => ?_, fun d' h => absurd h (by simp),
        fun d' h => absurd h (by simp), fun h => absurd h (by simp)⟩ <;>
        rw [hok] <;> decide
  | thrown =>
      have hth : onScanSuccess .thrown =
          [.stopScan, .putStatusUpdate (jstr "completed") (jstr "Verified via QR Scan"),
           .errorAlert, .resumeScan backoffDelayMs] := rfl
      refine ⟨?_, ?_, fun d' h => absurd h (by simp), fun d' h => absurd h (by simp),
        fun d' h => absurd h (by simp), fun _ => ?_⟩ <;> rw [hth] <;> decide
  | respErr d =>
      by_cases hd : d = some (jstr "ALREADY_SCANNED") ∨ d = some (jstr "already_scanned")
      · have hb : (d == some (jstr "ALREADY_SCANNED") ||
            d == some (jstr "already_scanned")) = true := by
          rcases hd with h | h <;> simp [h]
        have herr : onScanSuccess (.respErr d) =
            [.stopScan, .putStatusUpdate (jstr "completed") (jstr "Verified via QR Scan"),
             .alreadyScannedWarning, .resumeScan 0] := by
          simp [onScanSuccess, hb]
        refine ⟨?_, ?_, fun d' h => absurd h (by simp), fun d' _ _ => ?_,
          fun d' h hcond => absurd ?_ hcond, fun h => absurd h (by simp)⟩
        · rw [herr]; decide
        · rw [herr]; decide
        · rw [herr]; decide
        · cases h
          exact hd
      · have hb : (d == some (jstr "ALREADY_SCANNED") ||
            d == some (jstr "already_scanned")) = false := by
          simp only [Bool.or_eq_false_iff, beq_eq_false_iff_ne, ne_eq]
          exact ⟨fun h => hd (Or.inl h), fun h => hd (Or.inr h)⟩
        have herr : onScanSuccess (.respErr d) =
            [.stopScan, .putStatusUpdate (jstr "completed") (jstr "Verified via QR Scan"),
             .errorAlert, .resumeScan backoffDelayMs] := by
          simp [onScanSuccess, hb]
        refine ⟨?_, ?_, fun d' h => absurd h (by simp), fun d' h hcond => ?_,
          fun d' _ _ => ?_, fun h => absurd h (by simp)⟩
        · rw [herr]; decide
        · rw [herr]; decide
        · cases h
          exact absurd hcond hd
        · rw [herr]; decide

/-- Witness for C4, at the already-scanned conflict response. -/
theorem scan_decode_contract_witness :
    resumeDelays (onScanSuccess (.respErr (some (jstr "ALREADY_SCANNED")))) = [0] ∧
    (onScanSuccess (.respErr (some (jstr "ALREADY_SCANNED")))).countP isWarnEvent = 1 :=
  (scan_decode_contract (.respErr (some (jstr "ALREADY_SCANNED")))).2.2.2.1
    (some (jstr "ALREADY_SCANNED")) rfl (Or.inl rfl)

/-- Claim C5: each of the four compound category choices passes an appointment
exactly when `service_type` contains the category keyword case-insensitively and
the lowercased `urgency` equals one of the two accepted synonyms; any other
sort-choice value passes everything. Concretely, under "clearance-urgent" a
Medical Clearance / Urgent record passes while a Medical Consultation / Urgent
record is excluded. -/
theorem category_filter_spec (apt : Appointment) :
    (matchesType (jstr "clearance-urgent") apt =
      (jsIncludes (jsLower (apt.service_type.getD [])) (jstr "clearance") &&
        (jsLower (apt.urgency.getD []) == jstr "urgent" ||
         jsLower (apt.urgency.getD []) == jstr "high"))) ∧
    (matchesType (jstr "consultation-urgent") apt =
      (jsIncludes (jsLower (apt.service_type.getD [])) (jstr "consultation") &&
        (jsLower (apt.urgency.getD []) == jstr "urgent" ||
         jsLower (apt.urgency.getD []) == jstr "high"))) ∧
    (matchesType (jstr "clearance-normal") apt =
      (jsIncludes (jsLower (apt.service_type.getD [])) (jstr "clearance") &&
        (jsLower (apt.urgency.getD []) == jstr "normal" ||
         jsLower (apt.urgency.getD []) == jstr "low"))) ∧
    (matchesType (jstr "consultation-normal") apt =
      (jsIncludes (jsLower (apt.service_type.getD [])) (jstr "consultation") &&
        (jsLower (apt.urgency.getD []) == jstr "normal" ||
         jsLower (apt.urgency.getD []) == jstr "low"))) ∧
    (∀ choice : JSString,
      choice ∉ [jstr "clearance-urgent", jstr "consultation-urgent",
                jstr "clearance-normal", jstr "consultation-normal"] →
      matchesType choice apt = true) ∧
    (matchesType (jstr "clearance-urgent") aptClearanceUrgent = true) ∧
    (matchesType (jstr "clearance-urgent") aptConsultationUrgent = false) := by
  refine ⟨rfl, rfl, rfl, rfl, ?_, by decide, by decide⟩
  intro choice hc
  simp only [List.mem_cons, List.mem_singleton, not_or] at hc
  obtain ⟨h1, h2, h3, h4⟩ := hc
  have b1 : (choice == jstr "clearance-urgent") = false := by simpa using h1
  have b2 : (choice == jstr "consultation-urgent") = false := by simpa using h2
  have b3 : (choice == jstr "clearance-normal") = false := by simpa using h3
  have b4 : (choice == jstr "consultation-normal") = false := by simpa using h4
  simp [matchesType, b1, b2, b3, b4]

/-- Witness for C5, instantiating the no-filter branch at the "all" choice. -/
theorem category_filter_spec_witness :
    matchesType (jstr "all") aptCompleted = true :=
  (category_filter_spec aptCompleted).2.2.2.2.1 (jstr "all") (by decide)

theorem sendChatMessage_reloads (hist : List ChatMsg) (t : ChatTurn) (resp : JSString)
    (hr : t.reply = some resp) (hm : jsTrim t.input ≠ []) :
    (sendChatMessage hist t).2.2 = if keywordReload resp then 1 else 0 := by
  simp [sendChatMessage, hr, hm]

/-- Claim C6: for every assistant reply received in the student chat, exactly one
reload of the appointment store is triggered when the reply text contains
"booked" or "canceled" case-insensitively, and zero reloads when it contains
neither. -/
theorem chat_reload_keywords (hist : List ChatMsg) (t : ChatTurn) (resp : JSString)
    (hr : t.reply = some resp) (hm : jsTrim t.input ≠ []) :
    ((jsIncludes (jsLower resp) (jstr "booked") = true ∨
        jsIncludes (jsLower resp) (jstr "canceled") = true) →
      (sendChatMessage hist t).2.2 = 1) ∧
    ((jsIncludes (jsLower resp) (jstr "booked") = false ∧
        jsIncludes (jsLower resp) (jstr "canceled") = false) →
      (sendChatMessage hist t).2.2 = 0) := by
  rw [sendChatMessage_reloads hist t resp hr hm]
  constructor
  · intro h
    have hk : keywordReload resp = true := by
      unfold keywordReload
      rcases h with h | h <;> simp [h]
    simp [hk]
  · rintro ⟨h1, h2⟩
    have hk : keywordReload resp = false := by
      unfold keywordReload
      simp [h1, h2]
    simp [hk]

/-- Witness for C6: a reply announcing a booking yields one reload; a neutral
reply yields zero. -/
theorem chat_reload_keywords_witness :
    (sendChatMessage []
      ⟨jstr "book me tomorrow",
       some (jstr "Great news, your appointment has been booked.")⟩).2.2 = 1 ∧
    (sendChatMessage []
      ⟨jstr "hello", some (jstr "What time works for you?")⟩).2.2 = 0 := by
  constructor
  · exact (chat_reload_keywords []
      ⟨jstr "book me tomorrow", some (jstr "Great news, your appointment has been booked.")⟩
      (jstr "Great news, your appointment has been booked.") rfl (by decide)).1
      (Or.inl (by decide))
  · exact (chat_reload_keywords []
      ⟨jstr "hello", some (jstr "What time works for you?")⟩
      (jstr "What time works for you?") rfl (by decide)).2
      ⟨by decide, by decide⟩

/-! Helper lemmas for the chat transcript discipline. -/

theorem specTranscript_append (l1 l2 : List ChatTurn) :
    specTranscript (l1 ++ l2) = specTranscript l1 ++ specTranscript l2 := by
  induction l1 with
  | nil => simp [specTranscript]
  | cons t ts ih =>
      simp only [List.cons_append, specTranscript]
      by_cases h : jsTrim t.input = [] <;> simp [h, ih]

theorem runChat_fst (hist : List ChatMsg) (turns : List ChatTurn) :
    (runChat hist turns).1 = hist ++ specTranscript turns := by
  induction turns generalizing hist with
  | nil => simp [runChat, specTranscript]
  | cons t ts ih =>
      simp only [runChat, specTranscript, sendChatMessage]
      by_cases h : jsTrim t.input = []
      · simp [h, ih]
      · cases hr : t.reply <;> simp [h, hr, ih]

theorem runChat_snd (hist : List ChatMsg) (turns : List ChatTurn) :
    (runChat hist turns).2 = specRequests hist turns := by
  induction turns generalizing hist with
  | nil => simp [runChat, specRequests]
  | cons t ts ih =>
      simp only [runChat, specRequests, sendChatMessage]
      by_cases h : jsTrim t.input = []
      · simp [h, ih]
      · cases hr : t.reply <;> simp [h, hr, ih]

/-- Claim C7: across every sequence of chat turns, each (trimmed, nonempty) user
utterance and each received assistant reply is appended to `chatHistory` in the
order it occurred (the transcript equals the in-order specification transcript);
every request carries the full transcript accumulated so far, ending with its own
user message (the request log equals the specification request log); and the
transcript after any prefix of the session is a prefix of the final transcript —
never truncated or reordered. -/
theorem chat_transcript_discipline (turns : List ChatTurn) :
    ((runChat [] turns).1 = specTranscript turns) ∧
    ((runChat [] turns).2 = specRequests [] turns) ∧
    (∀ n : Nat, ∃ rest : List ChatMsg,
      (runChat [] turns).1 = (runChat [] (turns.take n)).1 ++ rest) := by
  refine ⟨by simpa using runChat_fst [] turns, runChat_snd [] turns, fun n => ?_⟩
  refine ⟨specTranscript (turns.drop n), ?_⟩
  rw [runChat_fst, runChat_fst]
  simp only [List.nil_append]
  conv_lhs => rw [← List.take_append_drop n turns]
  rw [specTranscript_append]

/-- Claim C8: whenever the filtered result is empty, the admin renderer emits the
"no appointments found" placeholder row and the student renderer emits the
"no appointments found" paragraph; both are distinct from an empty row/card
container. -/
theorem empty_result_placeholder (fs : FilterState) (sf : JSString)
    (store : List Appointment) :
    (applyFiltersAndSort fs store = [] →
      AdminDashboard.displayAppointments (applyFiltersAndSort fs store) =
        AdminDashboard.AdminRender.noResults) ∧
    (filterAppointments sf store = [] →
      StudentDashboard.displayAppointments (some (filterAppointments sf store)) =
        StudentDashboard.StudentRender.noResults) ∧
    (AdminDashboard.AdminRender.noResults ≠ AdminDashboard.AdminRender.rows []) ∧
    (StudentDashboard.StudentRender.noResults ≠ StudentDashboard.StudentRender.cards []) := by
  refine ⟨fun h => ?_, fun h => ?_, by decide, by decide⟩
  · rw [h]
    rfl
  · rw [h]
    rfl

/-- Witness for C8: an empty store on the admin side, and a store whose only
record fails the student status filter. -/
theorem empty_result_placeholder_witness :
    AdminDashboard.displayAppointments (applyFiltersAndSort fsAll []) =
      AdminDashboard.AdminRender.noResults ∧
    StudentDashboard.displayAppointments
        (some (filterAppointments (jstr "approved") [aptCompleted])) =
      StudentDashboard.StudentRender.noResults := by
  constructor
  · exact (empty_result_placeholder fsAll (jstr "approved") []).1
      (by simp [applyFiltersAndSort])
  · exact (empty_result_placeholder fsAll (jstr "approved") [aptCompleted]).2.1
      (by decide)

/-- Counterexample for C9: the claim says a non-2xx response with a string
`detail` surfaces that detail, but an empty-string detail is falsy in
`data.detail && typeof data.detail === "string"`, so the code surfaces the
generic invalid-credentials message instead of the (empty) detail value. -/
theorem login_empty_detail_counterexample :
    loginErrorText 400 (JsDetail.strVal []) ≠ [] ∧
    loginErrorText 400 (JsDetail.strVal []) = genericLoginMsg := by
  constructor
  · decide
  · decide

/-- Claim C9 as amended: for a non-2xx login response, the surfaced message is the
friendly malformed-email message when the status is 422; otherwise the detail
value when it is a non-empty string, and the generic invalid-credentials message
when the detail is absent, not a string, or the empty string. -/
theorem login_error_mapping (status : Nat) (detail : JsDetail)
    (hnon2xx : ¬ (200 ≤ status ∧ status ≤ 299)) :
    (status = 422 → loginErrorText status detail = friendlyEmailMsg) ∧
    (status ≠ 422 → ∀ s, detail = .strVal s → s ≠ [] →
      loginErrorText status detail = s) ∧
    (status ≠ 422 →
      (detail = .missing ∨ detail = .nonString ∨ detail = .strVal []) →
      loginErrorText status detail = genericLoginMsg) := by
  refine ⟨fun h => ?_, fun h s hs hne => ?_, fun h hd => ?_⟩
  · simp [loginErrorText, h]
  · simp [loginErrorText, h, hs, hne]
  · rcases hd with h1 | h1 | h1 <;> simp [loginErrorText, h, h1]

/-- Witness for C9 (amended), at a 404 with a human-readable detail string. -/
theorem login_error_mapping_witness :
    ¬ (200 ≤ 404 ∧ 404 ≤ 299) ∧
    loginErrorText 404 (JsDetail.strVal (jstr "User not found")) = jstr "User not found" :=
  ⟨by decide,
    (login_error_mapping 404 (JsDetail.strVal (jstr "User not found")) (by decide)).2.1
      (by decide) (jstr "User not found") rfl (by decide)⟩

/-- Claim C10: the two duplicated time formatters are extensionally equal, and on
representative inputs — empty string, HH:MM, HH:MM:SS — they produce the 12-hour
rendering, with hour 0 shown as 12 AM and hour 12 as 12 PM. -/
theorem formatTime_extensional_eq :
    (∀ s : JSString, AdminDashboard.formatTime s = StudentDashboard.formatTime s) ∧
    AdminDashboard.formatTime [] = [] ∧
    AdminDashboard.formatTime (jstr "00:30") = jstr "12:30 AM" ∧
    AdminDashboard.formatTime (jstr "12:05:00") = jstr "12:05 PM" ∧
    StudentDashboard.formatTime (jstr "09:15") = jstr "9:15 AM" ∧
    StudentDashboard.formatTime (jstr "23:45") = jstr "11:45 PM" :=
  ⟨fun _ => rfl, by decide, by decide, by decide, by decide, by decide⟩
